import Mathlib

/-!
Verification development for the SchoolSense procurement-audit application.

The definitions below are a shallow embedding of the decision logic of the
repository:

* the Duplicate Scorer of `src/components/Upload.tsx` (`duplicateMatches`),
* the enrichment fallback of `handleProcess` in `src/components/Upload.tsx`
  together with `searchMarketPriceStreaming` of `src/services/geminiService.ts`,
* the review actions `handleAction` / `handleReject` of the Review component,
* `handleUpdatePurchase` and `handleUploadComplete` of the App component.

JavaScript numbers are modelled as exact rationals (ℚ); NaN does not arise on
the modelled paths except through invalid date parsing, which is modelled by
`Option`.  JavaScript strings are Lean strings; `toLowerCase`/`trim` are
modelled character-wise (`jsToLower`, `jsTrim`).  `new Date(s).getTime()` for
the ISO `YYYY-MM-DD` strings the application stores is modelled by `epochMs`;
an unparseable date yields `none` (the analogue of `NaN`, which makes every
comparison false).  Fallible values (`T | null | undefined`) are `Option`.
-/

namespace SchoolSense

/-! ## JavaScript primitives -/

/-- Model of `String.prototype.toLowerCase` (character-wise). -/
def jsToLower (s : String) : String := ⟨s.data.map Char.toLower⟩

/-- Model of `String.prototype.trim`. -/
def jsTrim (s : String) : String :=
  ⟨((s.data.dropWhile Char.isWhitespace).reverse.dropWhile Char.isWhitespace).reverse⟩

/-- Model of the JavaScript expression `v || d` for a number `v`:
`0` (and at runtime `NaN`/`undefined`, folded into the falsy case) is replaced
by the default. -/
def jsOr (v d : ℚ) : ℚ := if v = 0 then d else v

/-- Model of `v || d` for a string `v`: the empty string is falsy. -/
def jsOrS (v d : String) : String := if v = "" then d else v

/-- Model of `v || d` for an optional number `v` (`undefined`/`null`/`0` all
fall back to the default). -/
def jsOrOptQ (v : Option ℚ) (d : ℚ) : ℚ :=
  match v with
  | some x => jsOr x d
  | none => d

/-- Model of `v || d` for an optional string. -/
def jsOrOptS (v : Option String) (d : String) : String :=
  match v with
  | some x => jsOrS x d
  | none => d

/-- Model of `Math.round` (round half towards positive infinity). -/
def roundHalfUp (q : ℚ) : ℤ := ⌊q + 1 / 2⌋

/-- Parse a maximal digit group as a natural number; `none` on a non-digit. -/
def digitsToNat? : List Char → Option Nat
  | [] => none
  | cs => cs.foldl (fun acc c =>
      match acc with
      | none => none
      | some n => if c.isDigit then some (n * 10 + (c.toNat - 48)) else none) (some 0)

/-- Split a character list on `'-'` (groups between dashes). -/
def splitOnDash (cs : List Char) : List (List Char) :=
  match cs with
  | [] => [[]]
  | c :: rest =>
    let r := splitOnDash rest
    if c = '-' then [] :: r
    else
      match r with
      | [] => [[c]]
      | g :: gs => (c :: g) :: gs

/-- Parse an ISO `YYYY-MM-DD` date string (the only date format the
application stores); out-of-range or malformed input yields `none`
(the analogue of JavaScript's `Invalid Date`). -/
def parseISODate (s : String) : Option (Nat × Nat × Nat) :=
  match (splitOnDash s.data).map digitsToNat? with
  | [some y, some m, some d] =>
    if 1 ≤ m ∧ m ≤ 12 ∧ 1 ≤ d ∧ d ≤ 31 then some (y, m, d) else none
  | _ => none

/-- Days from the civil epoch 1970-01-01 (Gregorian calendar, Hinnant's
`days_from_civil` algorithm, specialised to non-negative years). -/
def daysFromCivil (y m d : Nat) : Nat × Nat :=
  let y2 := if m ≤ 2 then y - 1 else y
  let era := y2 / 400
  let yoe := y2 - era * 400
  let mp := (m + 9) % 12
  let doy := (153 * mp + 2) / 5 + d - 1
  let doe := yoe * 365 + yoe / 4 - yoe / 100 + doy
  (era, doe)

/-- Model of `new Date(s).getTime()` for the ISO date-only strings used by the
application: milliseconds since the epoch, at UTC midnight. -/
def epochMs (s : String) : Option ℤ :=
  (parseISODate s).map (fun t =>
    let ed := daysFromCivil t.1 t.2.1 t.2.2
    (((ed.1 * 146097 + ed.2 : Nat) : ℤ) - 719468) * 86400000)

/-! ## Data model (src/types.ts) -/

/-- `ReviewStatus` of `src/types.ts`. -/
inductive ReviewStatus where
  | PENDING
  | VALIDATED
  | RESOLVED
  | FLAGGED
  | REJECTED
deriving DecidableEq, Repr

/-- `FlagType` of `src/types.ts`. -/
inductive FlagType where
  | DUPLICATE
  | PRICE_ANOMALY
  | RENEWAL
  | UNUSUAL_ITEM
  | MARKET_DEVIATION
  | ZOMBIE_SPEND
  | WASTE
  | POLICY_VIOLATION
  | INSUFFICIENT_DOCS
  | UNAUTHORIZED
  | FRAUD_SUSPECTED
  | BUDGET_EXCEEDED
  | OTHER
deriving DecidableEq, Repr

/-- `UserRole` of `src/types.ts`. -/
inductive UserRole where
  | SUBMITTER
  | REVIEWER
  | VIEWER
deriving DecidableEq, Repr

/-- `Flag` of `src/types.ts` (`context` is optional in the interface; the
flags built by `handleUploadComplete` always copy it, so it is kept plain). -/
structure Flag where
  type : FlagType
  reason : String
  context : String
deriving DecidableEq, Repr

/-- `User` of `src/types.ts` (`avatar` omitted: pure presentation). -/
structure User where
  id : String
  name : String
  email : String
  role : UserRole
  organization : String
deriving DecidableEq, Repr

/-- `PurchaseDocument` of `src/types.ts`.  Optional interface fields are
`Option`; for `rejectionNotes` the `none` case covers both an absent key and
an explicitly `undefined` value (Firestore never stores `undefined`). -/
structure PurchaseDocument where
  id : String
  vendor : String
  date : String
  amount : ℚ
  description : String
  category : String
  flags : List Flag
  status : ReviewStatus
  fileUrl : Option String
  department : String
  submittedBy : String
  aiConfidence : Option ℚ
  suggestedGlCode : Option String
  marketPriceEstimate : Option ℚ
  isSubscription : Option Bool
  rejectionFlags : Option (List FlagType)
  rejectionNotes : Option String
  rejectedBy : Option String
  rejectedAt : Option String
deriving DecidableEq, Repr

/-- `ExtractionResult` of `src/services/geminiService.ts`.  The parsed flag
objects carry a string `type` that `handleUploadComplete` casts to
`FlagType`; the embedding performs that cast up front and stores `Flag`
directly. -/
structure ExtractionResult where
  vendor : String
  amount : ℚ
  date : String
  description : String
  category : String
  confidence : ℚ
  suggestedGlCode : String
  marketPriceEstimate : Option ℚ
  isSubscription : Option Bool
  flags : List Flag
deriving DecidableEq, Repr

/-! ## Duplicate Scorer (src/components/Upload.tsx, `duplicateMatches`) -/

/-- `DUPLICATE_WINDOW_DAYS` of `src/components/Upload.tsx`. -/
def DUPLICATE_WINDOW_DAYS : ℚ := 60

/-- One entry of the `matches` array built by `duplicateMatches`. -/
structure DupMatch where
  purchase : PurchaseDocument
  score : Nat
  reasons : List String
deriving DecidableEq, Repr

/-- The day difference computed at Upload.tsx:84-86:
`Math.abs((purchaseDate.getTime() - resultDate.getTime()) / (1000*60*60*24))`.
`none` models a `NaN` day difference (either date failed to parse), which
makes the `<=` comparison false. -/
def daysDiff (purchaseDate resultDate : String) : Option ℚ :=
  match epochMs purchaseDate, epochMs resultDate with
  | some t1, some t2 => some |((t1 - t2 : ℤ) : ℚ) / (1000 * 60 * 60 * 24)|
  | _, _ => none

/-- The score / reasons accumulation of Upload.tsx:66-91 for one existing
purchase against the freshly extracted result: case-insensitive vendor
equality is worth 30, amount within `result.amount * 0.01` is worth 40, and
a day difference of at most `DUPLICATE_WINDOW_DAYS` is worth 30. -/
def scorePurchase (result : ExtractionResult) (purchase : PurchaseDocument) :
    Nat × List String :=
  let s0 : Nat × List String := (0, [])
  let s1 := if jsToLower purchase.vendor = jsToLower result.vendor
    then (s0.1 + 30, s0.2 ++ ["Same vendor"]) else s0
  let s2 := if |purchase.amount - result.amount| ≤ result.amount * (1 / 100)
    then (s1.1 + 40, s1.2 ++ ["Same amount"]) else s1
  match daysDiff purchase.date result.date with
  | some dd =>
    if dd ≤ DUPLICATE_WINDOW_DAYS
      then (s2.1 + 30, s2.2 ++ ["Within " ++ toString (roundHalfUp dd) ++ " days"])
      else s2
  | none => s2

/-- Stable insertion into a descending-by-score list (helper for the model of
`matches.sort((a, b) => b.score - a.score)`). -/
def insertDesc (m : DupMatch) : List DupMatch → List DupMatch
  | [] => [m]
  | x :: xs => if m.score ≤ x.score then x :: insertDesc m xs else m :: x :: xs

/-- Model of `Array.prototype.sort` with comparator `(a, b) => b.score - a.score`
(descending by score; tie order is not relied upon by any property). -/
def sortByScoreDesc : List DupMatch → List DupMatch
  | [] => []
  | x :: xs => insertDesc x (sortByScoreDesc xs)

/-- `duplicateMatches` of `src/components/Upload.tsx` (lines 59-101): score
every existing purchase, keep those with `score >= 60 && reasons.length >= 2`,
and sort by descending score. -/
def duplicateMatches (result : ExtractionResult)
    (existingPurchases : List PurchaseDocument) : List DupMatch :=
  let matchList := existingPurchases.filterMap (fun purchase =>
    let scored := scorePurchase result purchase
    if 60 ≤ scored.1 ∧ 2 ≤ scored.2.length then
      some { purchase := purchase, score := scored.1, reasons := scored.2 }
    else none)
  sortByScoreDesc matchList

/-- A pair (fresh result, existing purchase) is classified as a duplicate
match when the purchase appears in the `duplicateMatches` output. -/
def classifiedAsDuplicate (result : ExtractionResult)
    (existingPurchases : List PurchaseDocument) (p : PurchaseDocument) : Prop :=
  ∃ m ∈ duplicateMatches result existingPurchases, m.purchase = p

end SchoolSense

namespace SchoolSense

/-! ## Review actions (Review component, src/unnamed/part_003) -/

/-- A `Partial<PurchaseDocument>` update object as passed to `onUpdate`.
An outer `none` means the key is absent from the object.  For
`rejectionNotes` the inner `Option` distinguishes a defined value from the
explicit `undefined` produced by `rejectionNotes.trim() || undefined`. -/
structure PurchasePatch where
  vendor : Option String
  amount : Option ℚ
  date : Option String
  description : Option String
  category : Option String
  flags : Option (List Flag)
  status : Option ReviewStatus
  rejectionFlags : Option (List FlagType)
  rejectionNotes : Option (Option String)
  rejectedBy : Option String
  rejectedAt : Option String
deriving DecidableEq, Repr

/-- The update object `{ status }` sent by `handleAction` (part_003 line 74). -/
def statusOnlyPatch (status : ReviewStatus) : PurchasePatch :=
  { vendor := none, amount := none, date := none, description := none,
    category := none, flags := none, status := some status,
    rejectionFlags := none, rejectionNotes := none,
    rejectedBy := none, rejectedAt := none }

/-- The update object sent by `handleReject` (part_003 lines 90-96). -/
def rejectPatch (user : User) (selectedRejectionFlags : List FlagType)
    (rejectionNotes : String) (now : String) : PurchasePatch :=
  { vendor := none, amount := none, date := none, description := none,
    category := none, flags := none,
    status := some ReviewStatus.REJECTED,
    rejectionFlags := some selectedRejectionFlags,
    rejectionNotes :=
      some (if jsTrim rejectionNotes = "" then none else some (jsTrim rejectionNotes)),
    rejectedBy := some user.name,
    rejectedAt := some now }

/-- `handleAction` of the Review component (part_003 lines 71-77): guarded
only by the reviewer role; the record's current status is never inspected.
`none` models the early return (no update issued); `some (id, patch)` models
the `onUpdate(item.id, { status })` call. -/
def handleAction (user : User) (item : PurchaseDocument)
    (status : ReviewStatus) : Option (String × PurchasePatch) :=
  if user.role = UserRole.REVIEWER then
    some (item.id, statusOnlyPatch status)
  else none

/-- `handleReject` of the Review component (part_003 lines 87-100): guarded
by the reviewer role and a non-empty rejection-flag selection; `now` is the
`new Date().toISOString()` timestamp. -/
def handleReject (user : User) (item : PurchaseDocument)
    (selectedRejectionFlags : List FlagType) (rejectionNotes : String)
    (now : String) : Option (String × PurchasePatch) :=
  if user.role = UserRole.REVIEWER ∧ selectedRejectionFlags ≠ [] then
    some (item.id, rejectPatch user selectedRejectionFlags rejectionNotes now)
  else none

/-- The local merge `{ ...p, ...updates }` performed by the optimistic update
in `handleUpdatePurchase` (part_002 line 154), restricted to the keys a
`PurchasePatch` can carry. -/
def applyPatch (p : PurchaseDocument) (patch : PurchasePatch) : PurchaseDocument :=
  { p with
    vendor := patch.vendor.getD p.vendor,
    amount := patch.amount.getD p.amount,
    date := patch.date.getD p.date,
    description := patch.description.getD p.description,
    category := patch.category.getD p.category,
    flags := patch.flags.getD p.flags,
    status := patch.status.getD p.status,
    rejectionFlags :=
      match patch.rejectionFlags with
      | some v => some v
      | none => p.rejectionFlags,
    rejectionNotes :=
      match patch.rejectionNotes with
      | some v => v
      | none => p.rejectionNotes,
    rejectedBy :=
      match patch.rejectedBy with
      | some v => some v
      | none => p.rejectedBy,
    rejectedAt :=
      match patch.rejectedAt with
      | some v => some v
      | none => p.rejectedAt }

/-! ## App state and persistence (App component, src/unnamed/part_002) -/

/-- The `Object.entries(updates).filter(([_, value]) => value !== undefined)`
cleaning of part_002 lines 159-161: the Firestore payload drops keys whose
value is `undefined`.  In this patch model only `rejectionNotes` can carry an
explicit `undefined` (inner `none`). -/
def cleanedUpdates (patch : PurchasePatch) : PurchasePatch :=
  { patch with
    rejectionNotes :=
      match patch.rejectionNotes with
      | some (some s) => some (some s)
      | _ => none }

/-- The App-level state relevant to `handleUpdatePurchase`:
the in-memory purchases cache and the sandbox-mode flag. -/
structure AppState where
  purchases : List PurchaseDocument
  usingMockData : Bool
deriving DecidableEq, Repr

/-- Result of the `updateDoc` call (fulfilled or rejected promise). -/
inductive PersistOutcome where
  | ok
  | failure
deriving DecidableEq, Repr

/-- `handleUpdatePurchase` of the App component (part_002 lines 151-170):
the local list is updated optimistically; `updateDoc` is attempted only
outside sandbox mode, and a rejected `updateDoc` lands in the catch block,
which sets `usingMockData` to `true` and leaves the optimistic list in
place. -/
def handleUpdatePurchase (s : AppState) (id : String) (patch : PurchasePatch)
    (outcome : PersistOutcome) : AppState :=
  let optimistic := s.purchases.map (fun p => if p.id = id then applyPatch p patch else p)
  if s.usingMockData then
    { purchases := optimistic, usingMockData := s.usingMockData }
  else
    match outcome with
    | PersistOutcome.ok => { purchases := optimistic, usingMockData := s.usingMockData }
    | PersistOutcome.failure => { purchases := optimistic, usingMockData := true }

/-! ## Record creation (App component, `handleUploadComplete`) -/

/-- The `newPurchase` object literal of part_002 lines 197-216, spread with
the optimistic `tempId` of line 219.  Every key of the literal is written
with a defined value (the `|| default` guards), so the document is always
accepted by `addDoc`. -/
def newPurchaseOf (data : ExtractionResult) (currentUser : Option User)
    (fileUrl : String) (today : String) (tempId : String) : PurchaseDocument :=
  { id := tempId,
    vendor := jsOrS data.vendor "Unknown Vendor",
    amount := jsOr data.amount 0,
    date := jsOrS data.date today,
    description := jsOrS data.description "No description provided",
    category := jsOrS data.category "General",
    flags := data.flags,
    status := if data.flags.length > 0 then ReviewStatus.FLAGGED else ReviewStatus.PENDING,
    department := jsOrOptS (currentUser.map User.organization) "General",
    submittedBy := jsOrOptS (currentUser.map User.name) "Anonymous",
    aiConfidence := some (jsOr data.confidence 0),
    suggestedGlCode := some (jsOrS data.suggestedGlCode "N/A"),
    marketPriceEstimate := some (jsOrOptQ data.marketPriceEstimate 0),
    isSubscription := some (data.isSubscription.getD false),
    fileUrl := some fileUrl,
    rejectionFlags := none, rejectionNotes := none,
    rejectedBy := none, rejectedAt := none }

/-- A document is insertable when every key the create path writes holds a
defined value (Firestore rejects `undefined`). -/
def firestoreReady (p : PurchaseDocument) : Bool :=
  p.aiConfidence.isSome && p.suggestedGlCode.isSome &&
  p.marketPriceEstimate.isSome && p.isSubscription.isSome && p.fileUrl.isSome

end SchoolSense

namespace SchoolSense

/-! ## Enrichment (geminiService.ts `searchMarketPriceStreaming` and the
price branch of `handleProcess` in Upload.tsx) -/

/-- `MarketPriceResult` of `src/services/geminiService.ts` (sources are
(title, url) pairs). -/
structure MarketPriceResult where
  averagePrice : Option ℚ
  priceRange : Option (ℚ × ℚ)
  sources : List (String × String)
  confidence : ℚ
  searchQuery : String
  reasoning : String
deriving DecidableEq, Repr

/-- The fields of the JSON object parsed at geminiService.ts line 501
(`none` models an absent or `null` field). -/
structure RawPriceJson where
  averagePrice : Option ℚ
  priceRange : Option (ℚ × ℚ)
  confidence : Option ℚ
  reasoning : Option String
deriving DecidableEq, Repr

/-- Outcome of the provider interaction inside `searchMarketPriceStreaming`:
the request (or `JSON.parse`) threw, the response carried no text, or a JSON
object was parsed. -/
inductive SearchCall where
  | error
  | noText
  | parsed (sources : List (String × String)) (json : RawPriceJson)
deriving DecidableEq, Repr

/-- `searchMarketPriceStreaming` of `src/services/geminiService.ts` (lines
455-544).  Its body is one `try`/`catch` whose catch returns `null`, so the
function always RESOLVES: a provider failure produces the value `none`,
never a rejected promise.  On the parsed path, `averagePrice` is kept only
when truthy (`result.averagePrice ? Number(..) : null`), `confidence`
defaults to 50 and `reasoning` to a fixed message. -/
def searchMarketPriceStreaming (itemName : String) (call : SearchCall) :
    Option MarketPriceResult :=
  match call with
  | SearchCall.error => none
  | SearchCall.noText => none
  | SearchCall.parsed sources json =>
    some
      { averagePrice :=
          match json.averagePrice with
          | some v => if v = 0 then none else some v
          | none => none,
        priceRange := json.priceRange,
        sources := sources,
        confidence := jsOrOptQ json.confidence 50,
        searchQuery := itemName,
        reasoning := jsOrOptS json.reasoning "Price search complete" }

/-- The result of `normalizeItemForPricing` (geminiService.ts lines 189-239). -/
structure NormalizedItem where
  normalizedId : String
  itemName : String
  confidence : ℚ
deriving DecidableEq, Repr

/-- The `priceIntelligence` component state of Upload.tsx lines 36-46. -/
structure PriceIntelligence where
  normalizedId : String
  itemName : String
  confidence : ℚ
  stateAverage : Option ℚ
  savingsOpportunity : Option ℚ
  sources : Option (List (String × String))
  priceRange : Option (ℚ × ℚ)
  searchConfidence : Option ℚ
  reasoning : Option String
deriving DecidableEq, Repr

/-- The `setPriceIntelligence({...normalized, stateAverage: undefined,
savingsOpportunity: undefined})` value of Upload.tsx lines 143-147. -/
def normalizedOnly (n : NormalizedItem) : PriceIntelligence :=
  { normalizedId := n.normalizedId, itemName := n.itemName,
    confidence := n.confidence, stateAverage := none,
    savingsOpportunity := none, sources := none, priceRange := none,
    searchConfidence := none, reasoning := none }

/-- The price-intelligence value after the `await searchMarketPriceStreaming`
RESOLVES (Upload.tsx lines 153-173): when the result is non-null with a
non-null `averagePrice` the full intelligence is stored (savings only when
positive); otherwise no set call runs and the state keeps the
`normalizedOnly` value installed at line 143. -/
def priceSearchResultStep (n : NormalizedItem) (extractedData : ExtractionResult)
    (marketPrice : Option MarketPriceResult) : PriceIntelligence :=
  match marketPrice with
  | some mp =>
    match mp.averagePrice with
    | some avg =>
      { normalizedId := n.normalizedId, itemName := n.itemName,
        confidence := n.confidence,
        stateAverage := some avg,
        savingsOpportunity :=
          if 0 < extractedData.amount - avg then some (extractedData.amount - avg) else none,
        sources := some mp.sources,
        priceRange := mp.priceRange,
        searchConfidence := some mp.confidence,
        reasoning := some mp.reasoning }
    | none => normalizedOnly n
  | none => normalizedOnly n

/-- The `catch (priceError)` branch of Upload.tsx lines 174-184: it would
fall back to the market-price estimate of the base extraction (a truthy
check, so a `0` estimate is skipped).  `none` means no `setPriceIntelligence`
call runs in the branch, leaving the `normalizedOnly` state.  This branch is
reachable only if `searchMarketPriceStreaming` rejects. -/
def priceFallbackOnError (n : NormalizedItem) (extractedData : ExtractionResult) :
    Option PriceIntelligence :=
  match extractedData.marketPriceEstimate with
  | some est =>
    if est = 0 then none
    else
      some
        { normalizedId := n.normalizedId, itemName := n.itemName,
          confidence := n.confidence,
          stateAverage := some est,
          savingsOpportunity :=
            if 0 < extractedData.amount - est then some (extractedData.amount - est) else none,
          sources := none, priceRange := none,
          searchConfidence := none, reasoning := none }
  | none => none

/-! ## Upload component state and discarding (Upload.tsx `reset` and the
in-flight enrichment continuations) -/

/-- The result of `extractCommitments` (geminiService.ts lines 242-298). -/
structure CommitmentData where
  isRecurring : Bool
  renewalDate : Option String
  cancellationDeadline : Option String
  escalationClause : Option String
deriving DecidableEq, Repr

/-- The Upload component state touched by `reset` (Upload.tsx lines 28-56;
the DOM file-input ref is not modelled). -/
structure UploadState where
  file : Option String
  preview : Option String
  result : Option ExtractionResult
  showDuplicateWarning : Bool
  priceIntelligence : Option PriceIntelligence
  priceSearching : Bool
  searchProgress : Option String
  commitmentData : Option CommitmentData
deriving DecidableEq, Repr

/-- `reset` of Upload.tsx lines 241-251: clears every piece of submission
state.  It installs no cancellation token and does not touch the in-flight
enrichment promises. -/
def reset (s : UploadState) : UploadState :=
  { s with
    file := none, preview := none, result := none,
    showDuplicateWarning := false, priceIntelligence := none,
    priceSearching := false, searchProgress := none, commitmentData := none }

/-- The continuation of the commitment-extraction closure (Upload.tsx lines
204-206): `if (commitments) setCommitmentData(commitments)`.  It runs
whenever the promise resolves, with no check that the submission it belongs
to is still current. -/
def onCommitmentsResolved (s : UploadState) (commitments : Option CommitmentData) :
    UploadState :=
  match commitments with
  | some c => { s with commitmentData := some c }
  | none => s

/-- The `setPriceIntelligence` call sites of the price closure (Upload.tsx
lines 143, 164, 179): each writes the computed value unconditionally, with
no check that the submission it belongs to is still current. -/
def onPriceIntelligenceComputed (s : UploadState) (pi : PriceIntelligence) :
    UploadState :=
  { s with priceIntelligence := some pi }

end SchoolSense

namespace SchoolSense

/-! ## Helper lemmas for the Duplicate Scorer -/

lemma mem_insertDesc (m a : DupMatch) (l : List DupMatch) :
    a ∈ insertDesc m l ↔ a = m ∨ a ∈ l := by
  induction l with
  | nil => simp [insertDesc]
  | cons x xs ih =>
    by_cases h : m.score ≤ x.score
    · simp only [insertDesc, if_pos h, List.mem_cons, ih]
      tauto
    · simp only [insertDesc, if_neg h, List.mem_cons]

lemma mem_sortByScoreDesc (a : DupMatch) (l : List DupMatch) :
    a ∈ sortByScoreDesc l ↔ a ∈ l := by
  induction l with
  | nil => simp [sortByScoreDesc]
  | cons x xs ih =>
    simp only [sortByScoreDesc, mem_insertDesc, List.mem_cons, ih]

lemma mem_duplicateMatches (result : ExtractionResult)
    (l : List PurchaseDocument) (m : DupMatch) :
    m ∈ duplicateMatches result l ↔
      ∃ p ∈ l,
        (60 ≤ (scorePurchase result p).1 ∧ 2 ≤ (scorePurchase result p).2.length) ∧
        m = ⟨p, (scorePurchase result p).1, (scorePurchase result p).2⟩ := by
  unfold duplicateMatches
  rw [mem_sortByScoreDesc, List.mem_filterMap]
  constructor
  · rintro ⟨p, hp, hf⟩
    by_cases hc : 60 ≤ (scorePurchase result p).1 ∧ 2 ≤ (scorePurchase result p).2.length
    · refine ⟨p, hp, hc, ?_⟩
      simp only [if_pos hc, Option.some.injEq] at hf
      exact hf.symm
    · simp only [if_neg hc] at hf
      exact absurd hf (by simp)
  · rintro ⟨p, hp, hc, rfl⟩
    exact ⟨p, hp, by simp only [if_pos hc]⟩

lemma daysDiff_eq (d1 d2 : String) (t1 t2 : ℤ)
    (h1 : epochMs d1 = some t1) (h2 : epochMs d2 = some t2) :
    daysDiff d1 d2 = some |((t1 - t2 : ℤ) : ℚ) / (1000 * 60 * 60 * 24)| := by
  unfold daysDiff
  rw [h1, h2]

/-! ## Concrete records used by witnesses and counterexamples -/

/-- Fresh extraction of the concrete duplicate scenario of the spec
(vendor "Staples", amount 100.00, date 2024-01-10). -/
def staplesResult : ExtractionResult :=
  { vendor := "Staples", amount := 100, date := "2024-01-10",
    description := "Copy paper", category := "Supplies", confidence := 95,
    suggestedGlCode := "GL-100", marketPriceEstimate := none,
    isSubscription := none, flags := [] }

/-- Existing purchase of the concrete duplicate scenario
(vendor "Staples", amount 100.50, date 2024-01-15). -/
def staplesOld : PurchaseDocument :=
  { id := "p1", vendor := "Staples", date := "2024-01-15", amount := 201 / 2,
    description := "Copy paper", category := "Supplies", flags := [],
    status := ReviewStatus.VALIDATED, fileUrl := none,
    department := "Central Admin", submittedBy := "Mark Submitter",
    aiConfidence := none, suggestedGlCode := none,
    marketPriceEstimate := none, isSubscription := none,
    rejectionFlags := none, rejectionNotes := none,
    rejectedBy := none, rejectedAt := none }

/-- Fresh extraction for the tolerance counterexample: amount 1000. -/
def acmeResult : ExtractionResult :=
  { vendor := "Acme Supplies", amount := 1000, date := "2024-03-01",
    description := "Projector", category := "AV", confidence := 90,
    suggestedGlCode := "GL-200", marketPriceEstimate := none,
    isSubscription := none, flags := [] }

/-- Existing purchase for the tolerance counterexample: amount 1010.05, so
the amount difference 10.05 is within 1% of the larger amount (10.1005) but
above 1% of the candidate amount (10). -/
def acmeBigger : PurchaseDocument :=
  { id := "p2", vendor := "ACME SUPPLIES", date := "2024-03-01",
    amount := 20201 / 20, description := "Projector", category := "AV",
    flags := [], status := ReviewStatus.PENDING, fileUrl := none,
    department := "Central Admin", submittedBy := "Mark Submitter",
    aiConfidence := none, suggestedGlCode := none,
    marketPriceEstimate := none, isSubscription := none,
    rejectionFlags := none, rejectionNotes := none,
    rejectedBy := none, rejectedAt := none }

end SchoolSense

namespace SchoolSense

/-- C5: a pair (fresh extraction, existing purchase) is classified as a
duplicate match if and only if the accumulated score is at least 60 and at
least 2 of the 3 checks matched (each matched check contributes exactly one
entry to the reasons list); in particular a pair with fewer than 2 matched
checks is never classified as a match. -/
theorem duplicateScorer_classification_iff (result : ExtractionResult)
    (p : PurchaseDocument) (l : List PurchaseDocument) (hp : p ∈ l) :
    (classifiedAsDuplicate result l p ↔
      60 ≤ (scorePurchase result p).1 ∧ 2 ≤ (scorePurchase result p).2.length)
    ∧ ((scorePurchase result p).2.length < 2 →
      ¬ classifiedAsDuplicate result l p) := by
  have main : classifiedAsDuplicate result l p ↔
      60 ≤ (scorePurchase result p).1 ∧ 2 ≤ (scorePurchase result p).2.length := by
    constructor
    · rintro ⟨m, hm, hmp⟩
      rw [mem_duplicateMatches] at hm
      obtain ⟨q, _hq, hc, rfl⟩ := hm
      have hqp : q = p := hmp
      subst hqp
      exact hc
    · intro hc
      exact ⟨⟨p, (scorePurchase result p).1, (scorePurchase result p).2⟩,
        (mem_duplicateMatches result l _).mpr ⟨p, hp, hc, rfl⟩, rfl⟩
  exact ⟨main, fun hlen hcl => absurd (main.mp hcl).2 (by omega)⟩

/-- Witness for C5: the Staples scenario pair instantiates the
classification theorem with the membership hypothesis discharged. -/
theorem duplicateScorer_classification_iff_witness :
    staplesOld ∈ [staplesOld]
    ∧ ((classifiedAsDuplicate staplesResult [staplesOld] staplesOld ↔
        60 ≤ (scorePurchase staplesResult staplesOld).1 ∧
        2 ≤ (scorePurchase staplesResult staplesOld).2.length)
      ∧ ((scorePurchase staplesResult staplesOld).2.length < 2 →
        ¬ classifiedAsDuplicate staplesResult [staplesOld] staplesOld)) :=
  ⟨List.mem_singleton.mpr rfl,
   duplicateScorer_classification_iff staplesResult staplesOld [staplesOld]
     (List.mem_singleton.mpr rfl)⟩

/-- C1 (amended): when the vendor names are case-insensitively equal, the
amount difference is at most 1% of the CANDIDATE (freshly extracted) amount
(the tolerance the code computes as `result.amount * 0.01`), and the
transaction dates are at most 60 days apart, the scorer accumulates
30 + 40 + 30, the score is at least 100, and the pair is classified as a
duplicate match. -/
theorem duplicateScorer_full_match (result : ExtractionResult)
    (p : PurchaseDocument) (dd : ℚ)
    (hv : jsToLower p.vendor = jsToLower result.vendor)
    (ha : |p.amount - result.amount| ≤ result.amount * (1 / 100))
    (hd : daysDiff p.date result.date = some dd)
    (hdd : dd ≤ DUPLICATE_WINDOW_DAYS) :
    scorePurchase result p =
      (30 + 40 + 30,
        ["Same vendor", "Same amount",
          "Within " ++ toString (roundHalfUp dd) ++ " days"])
    ∧ 100 ≤ (scorePurchase result p).1
    ∧ ∀ l, p ∈ l → classifiedAsDuplicate result l p := by
  have hs : scorePurchase result p =
      (30 + 40 + 30,
        ["Same vendor", "Same amount",
          "Within " ++ toString (roundHalfUp dd) ++ " days"]) := by
    simp only [scorePurchase, hd, if_pos hv, if_pos ha, if_pos hdd]
    rfl
  refine ⟨hs, by rw [hs], ?_⟩
  intro l hl
  refine ⟨⟨p, (scorePurchase result p).1, (scorePurchase result p).2⟩,
    (mem_duplicateMatches result l _).mpr ⟨p, hl, ?_, rfl⟩, rfl⟩
  rw [hs]
  exact ⟨by norm_num, by norm_num⟩

/-- Witness for C1 (amended) at the Staples scenario: all three checks fire
and the scenario pair is classified. -/
theorem duplicateScorer_full_match_witness :
    jsToLower staplesOld.vendor = jsToLower staplesResult.vendor
    ∧ |staplesOld.amount - staplesResult.amount| ≤ staplesResult.amount * (1 / 100)
    ∧ daysDiff staplesOld.date staplesResult.date = some 5
    ∧ (5 : ℚ) ≤ DUPLICATE_WINDOW_DAYS
    ∧ scorePurchase staplesResult staplesOld =
        (30 + 40 + 30,
          ["Same vendor", "Same amount",
            "Within " ++ toString (roundHalfUp 5) ++ " days"])
    ∧ classifiedAsDuplicate staplesResult [staplesOld] staplesOld := by
  have hv : jsToLower staplesOld.vendor = jsToLower staplesResult.vendor := by decide
  have ha : |staplesOld.amount - staplesResult.amount| ≤
      staplesResult.amount * (1 / 100) := by
    rw [show staplesOld.amount = 201 / 2 from rfl,
      show staplesResult.amount = 100 from rfl,
      show ((201 : ℚ) / 2 - 100) = 1 / 2 by norm_num,
      abs_of_nonneg (by norm_num)]
    norm_num
  have hd : daysDiff staplesOld.date staplesResult.date = some 5 := by
    rw [daysDiff_eq staplesOld.date staplesResult.date 1705276800000 1704844800000
      (by decide) (by decide)]
    rw [show ((1705276800000 - 1704844800000 : ℤ) : ℚ) / (1000 * 60 * 60 * 24) = 5 by
      push_cast; norm_num]
    rw [abs_of_nonneg (by norm_num)]
  have hdd : (5 : ℚ) ≤ DUPLICATE_WINDOW_DAYS := by norm_num [DUPLICATE_WINDOW_DAYS]
  obtain ⟨h1, _h2, h3⟩ :=
    duplicateScorer_full_match staplesResult staplesOld 5 hv ha hd hdd
  exact ⟨hv, ha, hd, hdd, h1, h3 [staplesOld] (List.mem_singleton.mpr rfl)⟩

/-- Counterexample to C1 as stated: a pair whose amounts differ by 10.05,
within 1% of the LARGER amount (1010.05 → tolerance 10.1005) but not within
the tolerance the code actually uses (1% of the candidate amount 1000 → 10),
with equal vendors (case-insensitively) and equal dates.  The amount check
does not fire and the score is 60, not at least 100. -/
theorem duplicateScorer_larger_tolerance_counterexample :
    jsToLower acmeBigger.vendor = jsToLower acmeResult.vendor
    ∧ |acmeBigger.amount - acmeResult.amount| ≤
        max acmeBigger.amount acmeResult.amount * (1 / 100)
    ∧ daysDiff acmeBigger.date acmeResult.date = some 0
    ∧ (0 : ℚ) ≤ DUPLICATE_WINDOW_DAYS
    ∧ (scorePurchase acmeResult acmeBigger).1 = 60
    ∧ (scorePurchase acmeResult acmeBigger).2 = ["Same vendor", "Within 0 days"]
    ∧ ¬ 100 ≤ (scorePurchase acmeResult acmeBigger).1 := by
  have hv : jsToLower acmeBigger.vendor = jsToLower acmeResult.vendor := by decide
  have habs : |acmeBigger.amount - acmeResult.amount| = 201 / 20 := by
    rw [show acmeBigger.amount = 20201 / 20 from rfl,
      show acmeResult.amount = 1000 from rfl,
      show ((20201 : ℚ) / 20 - 1000) = 201 / 20 by norm_num,
      abs_of_nonneg (by norm_num)]
  have hmax : max acmeBigger.amount acmeResult.amount = 20201 / 20 := by
    rw [show acmeBigger.amount = 20201 / 20 from rfl,
      show acmeResult.amount = 1000 from rfl]
    exact max_eq_left (by norm_num)
  have ha : |acmeBigger.amount - acmeResult.amount| ≤
      max acmeBigger.amount acmeResult.amount * (1 / 100) := by
    rw [habs, hmax]; norm_num
  have hna : ¬ |acmeBigger.amount - acmeResult.amount| ≤
      acmeResult.amount * (1 / 100) := by
    rw [habs, show acmeResult.amount = 1000 from rfl]; norm_num
  have hd : daysDiff acmeBigger.date acmeResult.date = some 0 := by
    rw [daysDiff_eq acmeBigger.date acmeResult.date 1709251200000 1709251200000
      (by decide) (by decide)]
    rw [show ((1709251200000 - 1709251200000 : ℤ) : ℚ) / (1000 * 60 * 60 * 24) = 0 by
      push_cast; norm_num]
    rw [abs_of_nonneg (by norm_num)]
  have hdd : (0 : ℚ) ≤ DUPLICATE_WINDOW_DAYS := by norm_num [DUPLICATE_WINDOW_DAYS]
  have hr0 : roundHalfUp 0 = 0 := by norm_num [roundHalfUp]
  have hs : scorePurchase acmeResult acmeBigger = (60, ["Same vendor", "Within 0 days"]) := by
    simp only [scorePurchase, hd, if_pos hv, if_neg hna, if_pos hdd, hr0]
    rfl
  refine ⟨hv, ha, hd, hdd, by rw [hs], by rw [hs], by rw [hs]; norm_num⟩

end SchoolSense

namespace SchoolSense

/-! ## Concrete records for the review-workflow claims -/

/-- The reviewer demo account (src/unnamed/part_001). -/
def sarahReviewer : User :=
  { id := "u1", name := "Sarah Reviewer", email := "reviewer@schoolsense.gov",
    role := UserRole.REVIEWER, organization := "School District Office" }

/-- A purchase record already in the terminal state REJECTED. -/
def rejectedDoc : PurchaseDocument :=
  { id := "p9", vendor := "Acme", date := "2024-01-05", amount := 100,
    description := "Toner", category := "Supplies", flags := [],
    status := ReviewStatus.REJECTED, fileUrl := none,
    department := "Ops", submittedBy := "Mark Submitter",
    aiConfidence := none, suggestedGlCode := none,
    marketPriceEstimate := none, isSubscription := none,
    rejectionFlags := some [FlagType.WASTE],
    rejectionNotes := some "duplicate order",
    rejectedBy := some "Sarah Reviewer",
    rejectedAt := some "2024-01-06T00:00:00.000Z" }

/-- A pending purchase record with no rejection metadata. -/
def pendingDoc : PurchaseDocument :=
  { id := "p3", vendor := "Office Depot", date := "2024-02-01", amount := 250,
    description := "Chairs", category := "Furniture", flags := [],
    status := ReviewStatus.PENDING, fileUrl := none,
    department := "Ops", submittedBy := "Mark Submitter",
    aiConfidence := none, suggestedGlCode := none,
    marketPriceEstimate := none, isSubscription := none,
    rejectionFlags := none, rejectionNotes := none,
    rejectedBy := none, rejectedAt := none }

/-! ## C2: terminal states -/

/-- C2 (amended): the review actions are guarded only by the actor's role,
never by the record's current status.  A reviewer invocation of
`handleAction` issues the update `{ status }` and the merged record carries
the requested status, for every record — including records already in
VALIDATED, RESOLVED, or REJECTED. -/
theorem handleAction_ignores_current_status (user : User)
    (item : PurchaseDocument) (status : ReviewStatus)
    (h : user.role = UserRole.REVIEWER) :
    handleAction user item status = some (item.id, statusOnlyPatch status)
    ∧ (applyPatch item (statusOnlyPatch status)).status = status := by
  constructor
  · unfold handleAction
    rw [if_pos h]
  · rfl

/-- Witness for the amended C2: the reviewer approves a record that is
already REJECTED (a terminal state) and its status becomes VALIDATED. -/
theorem handleAction_ignores_current_status_witness :
    sarahReviewer.role = UserRole.REVIEWER
    ∧ rejectedDoc.status = ReviewStatus.REJECTED
    ∧ handleAction sarahReviewer rejectedDoc ReviewStatus.VALIDATED
        = some (rejectedDoc.id, statusOnlyPatch ReviewStatus.VALIDATED)
    ∧ (applyPatch rejectedDoc (statusOnlyPatch ReviewStatus.VALIDATED)).status
        = ReviewStatus.VALIDATED :=
  ⟨rfl, rfl,
    (handleAction_ignores_current_status sarahReviewer rejectedDoc
      ReviewStatus.VALIDATED rfl).1,
    (handleAction_ignores_current_status sarahReviewer rejectedDoc
      ReviewStatus.VALIDATED rfl).2⟩

/-- Counterexample to C2 as stated: a record whose status is the terminal
state REJECTED is transitioned to VALIDATED by a reviewer `handleAction`
invocation — `handleAction` never inspects `item.status`. -/
theorem terminal_state_transition_counterexample :
    rejectedDoc.status = ReviewStatus.REJECTED
    ∧ handleAction sarahReviewer rejectedDoc ReviewStatus.VALIDATED
        = some (rejectedDoc.id, statusOnlyPatch ReviewStatus.VALIDATED)
    ∧ (applyPatch rejectedDoc (statusOnlyPatch ReviewStatus.VALIDATED)).status
        = ReviewStatus.VALIDATED
    ∧ (applyPatch rejectedDoc (statusOnlyPatch ReviewStatus.VALIDATED)).status
        ≠ ReviewStatus.REJECTED := by
  refine ⟨rfl, ?_, rfl, by decide⟩
  unfold handleAction
  rfl

/-! ## C3: rejection metadata -/

/-- C3 (amended): a successful reject transition sets status REJECTED,
stores the selected flags (non-empty by the guard), the rejecting user and
the timestamp, and stores trimmed notes only when they are non-empty (empty
notes give `rejectionNotes: undefined`, which the local merge clears and the
persistence payload omits).  A validate transition (`handleAction`) writes
only the status field: the update carries no rejection metadata, and the
merged record keeps whatever rejection metadata it already had. -/
theorem reject_metadata_shape (user : User) (item : PurchaseDocument)
    (flags : List FlagType) (notes now : String)
    (h : user.role = UserRole.REVIEWER) (hf : flags ≠ []) :
    handleReject user item flags notes now
      = some (item.id, rejectPatch user flags notes now)
    ∧ (applyPatch item (rejectPatch user flags notes now)).status
        = ReviewStatus.REJECTED
    ∧ (applyPatch item (rejectPatch user flags notes now)).rejectionFlags
        = some flags
    ∧ (applyPatch item (rejectPatch user flags notes now)).rejectedBy
        = some user.name
    ∧ (applyPatch item (rejectPatch user flags notes now)).rejectedAt
        = some now
    ∧ (jsTrim notes ≠ "" →
        (applyPatch item (rejectPatch user flags notes now)).rejectionNotes
          = some (jsTrim notes))
    ∧ (jsTrim notes = "" →
        (applyPatch item (rejectPatch user flags notes now)).rejectionNotes
          = none)
    ∧ (∀ st : ReviewStatus,
        (statusOnlyPatch st).rejectionFlags = none
        ∧ (statusOnlyPatch st).rejectionNotes = none
        ∧ (statusOnlyPatch st).rejectedBy = none
        ∧ (statusOnlyPatch st).rejectedAt = none
        ∧ (applyPatch item (statusOnlyPatch st)).rejectionFlags
            = item.rejectionFlags
        ∧ (applyPatch item (statusOnlyPatch st)).rejectionNotes
            = item.rejectionNotes
        ∧ (applyPatch item (statusOnlyPatch st)).rejectedBy = item.rejectedBy
        ∧ (applyPatch item (statusOnlyPatch st)).rejectedAt = item.rejectedAt) := by
  refine ⟨?_, rfl, rfl, rfl, rfl, ?_, ?_, ?_⟩
  · unfold handleReject
    rw [if_pos ⟨h, hf⟩]
  · intro hne
    show (if jsTrim notes = "" then none else some (jsTrim notes)) = some (jsTrim notes)
    rw [if_neg hne]
  · intro heq
    show (if jsTrim notes = "" then none else some (jsTrim notes)) = none
    rw [if_pos heq]
  · intro st
    exact ⟨rfl, rfl, rfl, rfl, rfl, rfl, rfl, rfl⟩

end SchoolSense

namespace SchoolSense

/-- Witness for the amended C3: a reject with non-empty notes stores all
four metadata fields; the validate payload carries none of them. -/
theorem reject_metadata_shape_witness :
    handleReject sarahReviewer pendingDoc [FlagType.WASTE, FlagType.BUDGET_EXCEEDED]
        "Too expensive" "2024-02-02T10:00:00.000Z"
      = some (pendingDoc.id,
          rejectPatch sarahReviewer [FlagType.WASTE, FlagType.BUDGET_EXCEEDED]
            "Too expensive" "2024-02-02T10:00:00.000Z")
    ∧ (applyPatch pendingDoc
        (rejectPatch sarahReviewer [FlagType.WASTE, FlagType.BUDGET_EXCEEDED]
          "Too expensive" "2024-02-02T10:00:00.000Z")).status = ReviewStatus.REJECTED
    ∧ (applyPatch pendingDoc
        (rejectPatch sarahReviewer [FlagType.WASTE, FlagType.BUDGET_EXCEEDED]
          "Too expensive" "2024-02-02T10:00:00.000Z")).rejectionFlags
        = some [FlagType.WASTE, FlagType.BUDGET_EXCEEDED]
    ∧ (applyPatch pendingDoc
        (rejectPatch sarahReviewer [FlagType.WASTE, FlagType.BUDGET_EXCEEDED]
          "Too expensive" "2024-02-02T10:00:00.000Z")).rejectionNotes
        = some (jsTrim "Too expensive") := by
  obtain ⟨h1, h2, h3, _h4, _h5, h6, _h7, _h8⟩ :=
    reject_metadata_shape sarahReviewer pendingDoc
      [FlagType.WASTE, FlagType.BUDGET_EXCEEDED] "Too expensive"
      "2024-02-02T10:00:00.000Z" rfl (by decide)
  exact ⟨h1, h2, h3, h6 (by decide)⟩

end SchoolSense

namespace SchoolSense

/-- Counterexample to C3 as stated: a successful reject transition with
empty notes leaves `rejectionNotes` unset (the code sends
`rejectionNotes: undefined` and the merge clears it; the persistence payload
omits the key), so not all four rejection metadata fields are non-null after
every successful reject. -/
theorem reject_empty_notes_counterexample :
    handleReject sarahReviewer pendingDoc [FlagType.WASTE] ""
        "2024-02-02T10:00:00.000Z"
      = some (pendingDoc.id,
          rejectPatch sarahReviewer [FlagType.WASTE] "" "2024-02-02T10:00:00.000Z")
    ∧ (applyPatch pendingDoc
        (rejectPatch sarahReviewer [FlagType.WASTE] ""
          "2024-02-02T10:00:00.000Z")).status = ReviewStatus.REJECTED
    ∧ (applyPatch pendingDoc
        (rejectPatch sarahReviewer [FlagType.WASTE] ""
          "2024-02-02T10:00:00.000Z")).rejectionNotes = none
    ∧ (cleanedUpdates
        (rejectPatch sarahReviewer [FlagType.WASTE] ""
          "2024-02-02T10:00:00.000Z")).rejectionNotes = none := by
  refine ⟨?_, rfl, rfl, rfl⟩
  unfold handleReject
  rw [if_pos ⟨rfl, by decide⟩]

/-! ## C10: approve/resolve writes exactly the status field -/

/-- C10: `handleAction` sends the update `{ status }` and nothing else: the
payload (after the undefined-filter) is exactly the status field; every
other field of every record in the purchases list — vendor, amount, date,
description, category, flags, and all rejection metadata — is unchanged by
the optimistic merge, and records with a different id are untouched. -/
theorem handleAction_frame (user : User) (item : PurchaseDocument)
    (status : ReviewStatus) (h : user.role = UserRole.REVIEWER) :
    handleAction user item status = some (item.id, statusOnlyPatch status)
    ∧ cleanedUpdates (statusOnlyPatch status) = statusOnlyPatch status
    ∧ (statusOnlyPatch status).vendor = none
    ∧ (statusOnlyPatch status).amount = none
    ∧ (statusOnlyPatch status).date = none
    ∧ (statusOnlyPatch status).description = none
    ∧ (statusOnlyPatch status).category = none
    ∧ (statusOnlyPatch status).flags = none
    ∧ (statusOnlyPatch status).rejectionFlags = none
    ∧ (statusOnlyPatch status).rejectionNotes = none
    ∧ (statusOnlyPatch status).rejectedBy = none
    ∧ (statusOnlyPatch status).rejectedAt = none
    ∧ (∀ p : PurchaseDocument,
        applyPatch p (statusOnlyPatch status) = { p with status := status })
    ∧ (∀ (s : AppState) (outcome : PersistOutcome),
        (handleUpdatePurchase s item.id (statusOnlyPatch status) outcome).purchases
          = s.purchases.map
              (fun p => if p.id = item.id then { p with status := status } else p)) := by
  refine ⟨?_, rfl, rfl, rfl, rfl, rfl, rfl, rfl, rfl, rfl, rfl, rfl,
    fun p => rfl, ?_⟩
  · unfold handleAction
    rw [if_pos h]
  · intro s outcome
    obtain ⟨ps, mock⟩ := s
    cases mock <;> cases outcome <;> rfl

/-- Witness for C10: a reviewer resolves a pending record; the payload is
exactly the status field and the merged record differs from the original
only in status. -/
theorem handleAction_frame_witness :
    handleAction sarahReviewer pendingDoc ReviewStatus.RESOLVED
      = some (pendingDoc.id, statusOnlyPatch ReviewStatus.RESOLVED)
    ∧ cleanedUpdates (statusOnlyPatch ReviewStatus.RESOLVED)
      = statusOnlyPatch ReviewStatus.RESOLVED
    ∧ applyPatch pendingDoc (statusOnlyPatch ReviewStatus.RESOLVED)
      = { pendingDoc with status := ReviewStatus.RESOLVED }
    ∧ (handleUpdatePurchase ⟨[pendingDoc, rejectedDoc], false⟩ pendingDoc.id
        (statusOnlyPatch ReviewStatus.RESOLVED) PersistOutcome.ok).purchases
      = [pendingDoc, rejectedDoc].map
          (fun p => if p.id = pendingDoc.id
            then { p with status := ReviewStatus.RESOLVED } else p) := by
  obtain ⟨h1, h2, _, _, _, _, _, _, _, _, _, _, h13, h14⟩ :=
    handleAction_frame sarahReviewer pendingDoc ReviewStatus.RESOLVED rfl
  exact ⟨h1, h2, h13 pendingDoc,
    h14 ⟨[pendingDoc, rejectedDoc], false⟩ PersistOutcome.ok⟩

/-! ## C8: persistence failure -/

/-- C8: when the `updateDoc` write fails after the optimistic local change
(possible only outside sandbox mode), the catch block switches the
application into the degraded local-only sandbox mode (`usingMockData`,
surfaced to the user as the sandbox banner that flags all local changes as
unsynced) while the optimistic local change is retained — the divergence
from the backing store is flagged rather than silent. -/
theorem update_failure_enters_sandbox (s : AppState) (id : String)
    (patch : PurchasePatch) (h : s.usingMockData = false) :
    (handleUpdatePurchase s id patch PersistOutcome.failure).usingMockData = true
    ∧ (handleUpdatePurchase s id patch PersistOutcome.failure).purchases
        = s.purchases.map (fun p => if p.id = id then applyPatch p patch else p) := by
  unfold handleUpdatePurchase
  rw [h]
  exact ⟨rfl, rfl⟩

/-- Witness for C8: a concrete failed status update flips the sandbox flag
and keeps the optimistic list. -/
theorem update_failure_enters_sandbox_witness :
    (handleUpdatePurchase ⟨[pendingDoc], false⟩ pendingDoc.id
        (statusOnlyPatch ReviewStatus.VALIDATED) PersistOutcome.failure).usingMockData
      = true
    ∧ (handleUpdatePurchase ⟨[pendingDoc], false⟩ pendingDoc.id
        (statusOnlyPatch ReviewStatus.VALIDATED) PersistOutcome.failure).purchases
      = [pendingDoc].map (fun p => if p.id = pendingDoc.id
          then applyPatch p (statusOnlyPatch ReviewStatus.VALIDATED) else p) :=
  update_failure_enters_sandbox ⟨[pendingDoc], false⟩ pendingDoc.id
    (statusOnlyPatch ReviewStatus.VALIDATED) rfl

/-! ## C6: status on creation -/

/-- C6: the record created on confirmed submission has status FLAGGED
exactly when the extraction's flags list is non-empty, and PENDING exactly
when it is empty. -/
theorem created_status_flagged_iff (data : ExtractionResult) (u : Option User)
    (fileUrl today tempId : String) :
    ((newPurchaseOf data u fileUrl today tempId).status = ReviewStatus.FLAGGED
      ↔ data.flags ≠ [])
    ∧ ((newPurchaseOf data u fileUrl today tempId).status = ReviewStatus.PENDING
      ↔ data.flags = []) := by
  cases hf : data.flags with
  | nil => simp [newPurchaseOf, hf]
  | cons a l => simp [newPurchaseOf, hf]

/-! ## C7: amount default and insertability -/

/-- C7 (amended): the created record's amount is the extracted amount with
the JavaScript-falsy case defaulted to 0 (`data.amount || 0`): a missing or
zero amount is stored as 0 and the record is fully populated, hence
insertable; non-negativity is preserved but NOT enforced — a negative
extracted amount is stored unchanged. -/
theorem created_amount_default (data : ExtractionResult) (u : Option User)
    (fileUrl today tempId : String) :
    (data.amount = 0 → (newPurchaseOf data u fileUrl today tempId).amount = 0)
    ∧ (data.amount ≠ 0 →
        (newPurchaseOf data u fileUrl today tempId).amount = data.amount)
    ∧ (0 ≤ data.amount → 0 ≤ (newPurchaseOf data u fileUrl today tempId).amount)
    ∧ firestoreReady (newPurchaseOf data u fileUrl today tempId) = true := by
  refine ⟨?_, ?_, ?_, rfl⟩
  · intro h
    show jsOr data.amount 0 = 0
    unfold jsOr
    rw [if_pos h]
  · intro h
    show jsOr data.amount 0 = data.amount
    unfold jsOr
    rw [if_neg h]
  · intro h
    show 0 ≤ jsOr data.amount 0
    unfold jsOr
    by_cases h0 : data.amount = 0
    · rw [if_pos h0]
    · rw [if_neg h0]
      exact h

/-- Extraction with a zero (falsy / missing) amount. -/
def zeroAmountExtraction : ExtractionResult :=
  { vendor := "Vendor Y", amount := 0, date := "2024-01-02",
    description := "misc", category := "General", confidence := 40,
    suggestedGlCode := "GL-0", marketPriceEstimate := none,
    isSubscription := none, flags := [] }

/-- Witness for the amended C7: a falsy extracted amount is stored as 0 and
the record is insertable. -/
theorem created_amount_default_witness :
    (newPurchaseOf zeroAmountExtraction none "" "2024-01-02" "tmp-0").amount = 0
    ∧ firestoreReady (newPurchaseOf zeroAmountExtraction none "" "2024-01-02" "tmp-0")
      = true :=
  ⟨(created_amount_default zeroAmountExtraction none "" "2024-01-02" "tmp-0").1 rfl,
   (created_amount_default zeroAmountExtraction none "" "2024-01-02" "tmp-0").2.2.2⟩

/-- Extraction whose amount is negative. -/
def negativeExtraction : ExtractionResult :=
  { vendor := "Vendor X", amount := -5, date := "2024-01-01",
    description := "correction", category := "General", confidence := 90,
    suggestedGlCode := "GL-9", marketPriceEstimate := none,
    isSubscription := none, flags := [] }

/-- Counterexample to C7 as stated: a negative extracted amount is stored
unchanged, so the stored amount of a created record is not always
non-negative. -/
theorem negative_amount_counterexample :
    (newPurchaseOf negativeExtraction none "" "2024-01-01" "tmp-1").amount = -5
    ∧ ¬ 0 ≤ (newPurchaseOf negativeExtraction none "" "2024-01-01" "tmp-1").amount := by
  have h : (newPurchaseOf negativeExtraction none "" "2024-01-01" "tmp-1").amount = -5 := by
    show jsOr (-5) 0 = -5
    unfold jsOr
    rw [if_neg (by norm_num)]
  refine ⟨h, ?_⟩
  rw [h]
  norm_num

end SchoolSense

namespace SchoolSense

/-! ## C4: market-price search failure and the fallback -/

/-- The base extraction of the spec's fallback scenario: submitted amount
400 with `marketPriceEstimate = 250`. -/
def failedSearchExt : ExtractionResult :=
  { vendor := "Acme", amount := 400, date := "2024-01-01",
    description := "Projector", category := "AV", confidence := 90,
    suggestedGlCode := "GL-1", marketPriceEstimate := some 250,
    isSubscription := none, flags := [] }

/-- The normalized item produced before the market search. -/
def acmeNormalized : NormalizedItem :=
  { normalizedId := "projector_acme", itemName := "Acme Projector",
    confidence := 80 }

/-- C4 (code behaviour at the failing input): `searchMarketPriceStreaming`
swallows every failure and RESOLVES with `null`, so a failed search reaches
the caller as the fulfilled value `none`; the caller's non-null check then
leaves the price intelligence without `stateAverage` — the `catch`-based
fallback (which would produce stateAverage 250 / savings 150, as the last
conjunct shows) is unreachable, because the awaited promise never rejects. -/
theorem market_search_failure_skips_fallback :
    searchMarketPriceStreaming "Acme Projector" SearchCall.error = none
    ∧ priceSearchResultStep acmeNormalized failedSearchExt
        (searchMarketPriceStreaming "Acme Projector" SearchCall.error)
      = normalizedOnly acmeNormalized
    ∧ (priceSearchResultStep acmeNormalized failedSearchExt
        (searchMarketPriceStreaming "Acme Projector" SearchCall.error)).stateAverage
      = none
    ∧ (∃ pi, priceFallbackOnError acmeNormalized failedSearchExt = some pi
        ∧ pi.stateAverage = some 250 ∧ pi.savingsOpportunity = some 150) := by
  refine ⟨rfl, rfl, rfl, ?_⟩
  have hfb : priceFallbackOnError acmeNormalized failedSearchExt
      = some
        { normalizedId := "projector_acme", itemName := "Acme Projector",
          confidence := 80, stateAverage := some 250,
          savingsOpportunity := some 150, sources := none, priceRange := none,
          searchConfidence := none, reasoning := none } := by
    show ((if (250 : ℚ) = 0 then none
      else some
        { normalizedId := "projector_acme", itemName := "Acme Projector",
          confidence := 80, stateAverage := some 250,
          savingsOpportunity :=
            if 0 < (400 : ℚ) - 250 then some ((400 : ℚ) - 250) else none,
          sources := none, priceRange := none,
          searchConfidence := none,
          reasoning := (none : Option String) }) : Option PriceIntelligence)
      = some
        { normalizedId := "projector_acme", itemName := "Acme Projector",
          confidence := 80, stateAverage := some 250,
          savingsOpportunity := some 150, sources := none, priceRange := none,
          searchConfidence := none, reasoning := none }
    rw [if_neg (show ¬ (250 : ℚ) = 0 by norm_num),
      if_pos (show (0 : ℚ) < 400 - 250 by norm_num),
      show (400 : ℚ) - 250 = 150 by norm_num]
  exact ⟨_, hfb, rfl, rfl⟩

/-! ## C9: discarding in-flight enrichment on reset -/

/-- C9 (code behaviour at the failing input): `reset` clears the submission
state but installs no cancellation or staleness guard, and the enrichment
continuations write their results unconditionally — so an enrichment result
that arrives after a reset IS applied to the cleared state instead of being
discarded. -/
theorem late_enrichment_applied_after_reset (s : UploadState)
    (c : CommitmentData) (pi : PriceIntelligence) :
    (reset s).result = none
    ∧ (reset s).commitmentData = none
    ∧ (reset s).priceIntelligence = none
    ∧ (onCommitmentsResolved (reset s) (some c)).commitmentData = some c
    ∧ (onPriceIntelligenceComputed (reset s) pi).priceIntelligence = some pi :=
  ⟨rfl, rfl, rfl, rfl, rfl⟩

end SchoolSense
